import Mathlib

/-!
Verification of the error-translation layer of the bitcoin-ffi repository
(src/error.rs, src/lib.rs) through a shallow embedding.

Modelling conventions, shared by all definitions below:

* Each upstream (rust-bitcoin) error enum is embedded as a Lean inductive
  with one constructor per variant that the source matches on, plus a final
  `Unknown` constructor.  The upstream enums are declared non_exhaustive in
  rust-bitcoin, so `Unknown` stands for every variant that the mapper does
  not enumerate, including ones added in future upstream releases.
* An upstream payload that the mapper only ever passes to `.to_string()`
  (Rust's Display formatting) is represented directly by that display
  string, a `String`; a payload the mapper discards entirely is likewise
  kept as an opaque `String` so the variant still carries data.
* Numeric payloads (a u8 segwit flag, a u32 sighash) are `Nat`.
* A Rust conversion that may panic is embedded as a function into
  `Option`: `some` is a normal return, `none` is a panic (the source's
  `unreachable!` arm).  Arms of the source that construct a value are
  translated to `some`-returning arms.
-/

/-- Character for one lowercase hexadecimal digit (nibble value 0..15). -/
def hexDigitChar (n : Nat) : Char :=
  if n < 10 then Char.ofNat (48 + n) else Char.ofNat (87 + n)

/-- Two lowercase hexadecimal digits for one byte value. -/
def byteToLowerHex (b : Nat) : String :=
  String.mk [hexDigitChar (b / 16), hexDigitChar (b % 16)]

/-- Modelled from the spec: the external `DisplayHex::to_lower_hex_string`
used by the consensus-encoding mapper, which the spec describes as rendering
checksum bytes as "lowercase hex text".  Each byte becomes two lowercase hex
digits, in order. -/
def toLowerHexString (bytes : List Nat) : String :=
  String.join (bytes.map byteToLowerHex)

/-- Upstream `bitcoin::address::ParseError` (aliased `BitcoinParseError` in
src/error.rs).  Payloads are display strings; `Unknown` models the
non_exhaustive extension of the enum. -/
inductive BitcoinParseError
  | Base58 (e : String)
  | Bech32 (e : String)
  | WitnessVersion (e : String)
  | WitnessProgram (e : String)
  | UnknownHrp (e : String)
  | LegacyAddressTooLong (e : String)
  | InvalidBase58PayloadLength (e : String)
  | InvalidLegacyPrefixErr (e : String) -- source variant: InvalidLegacyPrefix
  | NetworkValidation (e : String)
  | Unknown (e : String)
  deriving Repr, DecidableEq

/-- Stable `AddressParseError` exposed across the FFI boundary
(src/error.rs). -/
inductive AddressParseError
  | Base58
  | Bech32
  | WitnessVersion (error_message : String)
  | WitnessProgram (error_message : String)
  | UnknownHrp
  | LegacyAddressTooLong
  | InvalidBase58PayloadLength
  | InvalidLegacyPrefixErr -- source variant: InvalidLegacyPrefix
  | NetworkValidation
  | OtherAddressParseErr
  deriving Repr, DecidableEq

/-- Embedding of `impl From<BitcoinParseError> for AddressParseError`
(src/error.rs).  `none` would model a panic; every arm of the source match
constructs a value. -/
def AddressParseError.ofUpstream : BitcoinParseError → Option AddressParseError
  | .Base58 _ => some .Base58
  | .Bech32 _ => some .Bech32
  | .WitnessVersion e => some (.WitnessVersion e)
  | .WitnessProgram e => some (.WitnessProgram e)
  | .UnknownHrp _ => some .UnknownHrp
  | .LegacyAddressTooLong _ => some .LegacyAddressTooLong
  | .InvalidBase58PayloadLength _ => some .InvalidBase58PayloadLength
  | .InvalidLegacyPrefixErr _ => some .InvalidLegacyPrefixErr
  | .NetworkValidation _ => some .NetworkValidation
  | .Unknown _ => some .OtherAddressParseErr -- wildcard arm of the source

/-- Stable `FeeRateError` (src/error.rs): a single variant, no payload, no
catch-all. -/
inductive FeeRateError
  | ArithmeticOverflow
  deriving Repr, DecidableEq

/-- Upstream `bitcoin::address::FromScriptError` (aliased
`BitcoinFromScriptError`). -/
inductive BitcoinFromScriptError
  | UnrecognizedScript
  | WitnessProgram (e : String)
  | WitnessVersion (e : String)
  | Unknown (e : String)
  deriving Repr, DecidableEq

/-- Stable `FromScriptError` (src/error.rs). -/
inductive FromScriptError
  | UnrecognizedScript
  | WitnessProgram (error_message : String)
  | WitnessVersion (error_message : String)
  | OtherFromScriptErr
  deriving Repr, DecidableEq

/-- Embedding of `impl From<BitcoinFromScriptError> for FromScriptError`
(src/error.rs). -/
def FromScriptError.ofUpstream : BitcoinFromScriptError → Option FromScriptError
  | .UnrecognizedScript => some .UnrecognizedScript
  | .WitnessProgram e => some (.WitnessProgram e)
  | .WitnessVersion e => some (.WitnessVersion e)
  | .Unknown _ => some .OtherFromScriptErr -- wildcard arm of the source

/-- Upstream `bitcoin::amount::ParseAmountError` (aliased
`BitcoinParseAmountError`).  The `InvalidCharacter` payload is the nested
upstream error value, represented by its display string. -/
inductive BitcoinParseAmountError
  | OutOfRange (e : String)
  | TooPrecise (e : String)
  | MissingDigits (e : String)
  | InputTooLarge (e : String)
  | InvalidCharacter (e : String)
  | Unknown (e : String)
  deriving Repr, DecidableEq

/-- Stable `ParseAmountError` (src/error.rs). -/
inductive ParseAmountError
  | OutOfRange
  | TooPrecise
  | MissingDigits
  | InputTooLarge
  | InvalidCharacter (error_message : String)
  | OtherParseAmountErr
  deriving Repr, DecidableEq

/-- Embedding of `impl From<BitcoinParseAmountError> for ParseAmountError`
(src/error.rs). -/
def ParseAmountError.ofUpstream : BitcoinParseAmountError → Option ParseAmountError
  | .OutOfRange _ => some .OutOfRange
  | .TooPrecise _ => some .TooPrecise
  | .MissingDigits _ => some .MissingDigits
  | .InputTooLarge _ => some .InputTooLarge
  | .InvalidCharacter c => some (.InvalidCharacter c)
  | .Unknown _ => some .OtherParseAmountErr -- wildcard arm of the source

/-- Upstream `bitcoin::consensus::encode::Error` (aliased
`BitcoinEncodeError`).  The checksum payloads are the raw 4-byte arrays,
embedded as lists of byte values. -/
inductive BitcoinEncodeError
  | IoErr (e : String) -- source variant: Io
  | OversizedVectorAllocation (requested : Nat) (max : Nat)
  | InvalidChecksum (expected : List Nat) (actual : List Nat)
  | NonMinimalVarInt
  | ParseFailed (msg : String)
  | UnsupportedSegwitFlag (flag : Nat)
  | Unknown (e : String)
  deriving Repr, DecidableEq

/-- Stable `EncodeError` (src/error.rs). -/
inductive EncodeError
  | IoErr -- source variant: Io
  | OversizedVectorAllocation
  | InvalidChecksum (expected : String) (actual : String)
  | NonMinimalVarInt
  | ParseFailed
  | UnsupportedSegwitFlag (flag : Nat)
  | OtherEncodeErr
  deriving Repr, DecidableEq

/-- Embedding of `impl From<BitcoinEncodeError> for EncodeError`
(src/error.rs).  The checksum arm applies the lowercase-hex rendering to
both byte arrays. -/
def EncodeError.ofUpstream : BitcoinEncodeError → Option EncodeError
  | .IoErr _ => some .IoErr
  | .OversizedVectorAllocation _ _ => some .OversizedVectorAllocation
  | .InvalidChecksum expected actual =>
      some (.InvalidChecksum (toLowerHexString expected) (toLowerHexString actual))
  | .NonMinimalVarInt => some .NonMinimalVarInt
  | .ParseFailed _ => some .ParseFailed
  | .UnsupportedSegwitFlag flag => some (.UnsupportedSegwitFlag flag)
  | .Unknown _ => some .OtherEncodeErr -- wildcard arm of the source

/-- Upstream `bitcoin::psbt::Error` (aliased `BitcoinPsbtError`).  Payloads
that the mapper formats with `.to_string()` or discards are display
strings; the sighash payload is the raw u32. -/
inductive BitcoinPsbtError
  | InvalidMagic
  | MissingUtxo
  | InvalidSeparator
  | PsbtUtxoOutOfbounds -- spelling as in the upstream variant name
  | InvalidKey (key : String)
  | InvalidProprietaryKey
  | DuplicateKey (key : String)
  | UnsignedTxHasScriptSigs
  | UnsignedTxHasScriptWitnesses
  | MustHaveUnsignedTx
  | NoMorePairs
  | UnexpectedUnsignedTx (e : String)
  | NonStandardSighashType (sighash : Nat)
  | InvalidHash (hash : String)
  | InvalidPreimageHashPair (e : String)
  | CombineInconsistentKeySources (xpub : String)
  | ConsensusEncoding (encoding_error : String)
  | NegativeFee
  | FeeOverflow
  | InvalidPublicKey (e : String)
  | InvalidSecp256k1PublicKey (e : String)
  | InvalidXOnlyPublicKey
  | InvalidEcdsaSignature (e : String)
  | InvalidTaprootSignature (e : String)
  | InvalidControlBlock
  | InvalidLeafVersion
  | Taproot (e : String)
  | TapTree (e : String)
  | XPubKey (e : String)
  | Version (e : String)
  | PartialDataConsumption
  | IoErr (e : String) -- source variant: Io
  | Unknown (e : String)
  deriving Repr, DecidableEq

/-- Stable `PsbtError` (src/error.rs). -/
inductive PsbtError
  | InvalidMagic
  | MissingUtxo
  | InvalidSeparator
  | PsbtUtxoOutOfBounds
  | InvalidKey (key : String)
  | InvalidProprietaryKey
  | DuplicateKey (key : String)
  | UnsignedTxHasScriptSigs
  | UnsignedTxHasScriptWitnesses
  | MustHaveUnsignedTx
  | NoMorePairs
  | UnexpectedUnsignedTx
  | NonStandardSighashType (sighash : Nat)
  | InvalidHash (hash : String)
  | InvalidPreimageHashPair
  | CombineInconsistentKeySources (xpub : String)
  | ConsensusEncoding (encoding_error : String)
  | NegativeFee
  | FeeOverflow
  | InvalidPublicKey (error_message : String)
  | InvalidSecp256k1PublicKey (secp256k1_error : String)
  | InvalidXOnlyPublicKey
  | InvalidEcdsaSignature (error_message : String)
  | InvalidTaprootSignature (error_message : String)
  | InvalidControlBlock
  | InvalidLeafVersion
  | Taproot
  | TapTree (error_message : String)
  | XPubKey
  | Version (error_message : String)
  | PartialDataConsumption
  | IoErr (error_message : String) -- source variant: Io
  | OtherPsbtErr
  deriving Repr, DecidableEq

/-- Embedding of `impl From<BitcoinPsbtError> for PsbtError`
(src/error.rs). -/
def PsbtError.ofUpstream : BitcoinPsbtError → Option PsbtError
  | .InvalidMagic => some .InvalidMagic
  | .MissingUtxo => some .MissingUtxo
  | .InvalidSeparator => some .InvalidSeparator
  | .PsbtUtxoOutOfbounds => some .PsbtUtxoOutOfBounds
  | .InvalidKey key => some (.InvalidKey key)
  | .InvalidProprietaryKey => some .InvalidProprietaryKey
  | .DuplicateKey key => some (.DuplicateKey key)
  | .UnsignedTxHasScriptSigs => some .UnsignedTxHasScriptSigs
  | .UnsignedTxHasScriptWitnesses => some .UnsignedTxHasScriptWitnesses
  | .MustHaveUnsignedTx => some .MustHaveUnsignedTx
  | .NoMorePairs => some .NoMorePairs
  | .UnexpectedUnsignedTx _ => some .UnexpectedUnsignedTx
  | .NonStandardSighashType sighash => some (.NonStandardSighashType sighash)
  | .InvalidHash hash => some (.InvalidHash hash)
  | .InvalidPreimageHashPair _ => some .InvalidPreimageHashPair
  | .CombineInconsistentKeySources xpub => some (.CombineInconsistentKeySources xpub)
  | .ConsensusEncoding encoding_error => some (.ConsensusEncoding encoding_error)
  | .NegativeFee => some .NegativeFee
  | .FeeOverflow => some .FeeOverflow
  | .InvalidPublicKey e => some (.InvalidPublicKey e)
  | .InvalidSecp256k1PublicKey e => some (.InvalidSecp256k1PublicKey e)
  | .InvalidXOnlyPublicKey => some .InvalidXOnlyPublicKey
  | .InvalidEcdsaSignature e => some (.InvalidEcdsaSignature e)
  | .InvalidTaprootSignature e => some (.InvalidTaprootSignature e)
  | .InvalidControlBlock => some .InvalidControlBlock
  | .InvalidLeafVersion => some .InvalidLeafVersion
  | .Taproot _ => some .Taproot
  | .TapTree e => some (.TapTree e)
  | .XPubKey _ => some .XPubKey
  | .Version e => some (.Version e)
  | .PartialDataConsumption => some .PartialDataConsumption
  | .IoErr e => some (.IoErr e)
  | .Unknown _ => some .OtherPsbtErr -- wildcard arm of the source

/-- Upstream `bitcoin::psbt::PsbtParseError` (aliased
`BitcoinPsbtParseError`).  Also non_exhaustive upstream, hence `Unknown`. -/
inductive BitcoinPsbtParseError
  | PsbtEncoding (e : String)
  | Base64Encoding (e : String)
  | Unknown (e : String)
  deriving Repr, DecidableEq

/-- Stable `PsbtParseError` (src/error.rs): two variants, no catch-all. -/
inductive PsbtParseError
  | PsbtEncoding (error_message : String)
  | Base64Encoding (error_message : String)
  deriving Repr, DecidableEq

/-- Embedding of `impl From<BitcoinPsbtParseError> for PsbtParseError`
(src/error.rs).  The wildcard arm of the source is `unreachable!(...)`, a
panic, embedded as `none`. -/
def PsbtParseError.ofUpstream : BitcoinPsbtParseError → Option PsbtParseError
  | .PsbtEncoding e => some (.PsbtEncoding e)
  | .Base64Encoding e => some (.Base64Encoding e)
  | .Unknown _ => none -- unreachable! in the source: a panic

/-- Upstream `bitcoin::psbt::ExtractTxError` (aliased
`BitcoinExtractTxError`).  The `rest` fields stand for the payload fields
the source discards with `..`. -/
inductive BitcoinExtractTxError
  | AbsurdFeeRate (fee_rate : String) (rest : String)
  | MissingInputValue (rest : String)
  | SendingTooMuch (rest : String)
  | Unknown (e : String)
  deriving Repr, DecidableEq

/-- Stable `ExtractTxError` (src/error.rs). -/
inductive ExtractTxError
  | AbsurdFeeRate (fee_rate : String)
  | MissingInputValue
  | SendingTooMuch
  | OtherExtractTxErr
  deriving Repr, DecidableEq

/-- Embedding of `impl From<BitcoinExtractTxError> for ExtractTxError`
(src/error.rs). -/
def ExtractTxError.ofUpstream : BitcoinExtractTxError → Option ExtractTxError
  | .AbsurdFeeRate fee_rate _ => some (.AbsurdFeeRate fee_rate)
  | .MissingInputValue _ => some .MissingInputValue
  | .SendingTooMuch _ => some .SendingTooMuch
  | .Unknown _ => some .OtherExtractTxErr -- wildcard arm of the source

/-- Modelled from the spec: the external `bitcoin::FeeRate::from_sat_per_vb`,
described by the spec as "converting a virtual-byte rate to an internal
weight-unit rate" whose only failure is "arithmetic overflow", signalled as
"a plain absence-of-value".  One virtual byte is four weight units, so the
rate in satoshis per 1000 weight units is the input times 250; `none` when
the u64 multiplication would overflow. -/
def bitcoinFeeRateFromSatPerVb (sat_per_vb : Nat) : Option Nat :=
  if sat_per_vb * 250 < 2 ^ 64 then some (sat_per_vb * 250) else none

/-- Wrapper `FeeRate` (src/lib.rs), a single-field wrapper holding the
upstream fee rate (its satoshi-per-kwu value). -/
structure FeeRate where
  satPerKwu : Nat
  deriving Repr, DecidableEq

/-- Embedding of `FeeRate::from_sat_per_vb` (src/lib.rs): matches the
upstream Option, mapping `Some` to `Ok` and `None` to
`Err(FeeRateError::ArithmeticOverflow)`. -/
def FeeRate.from_sat_per_vb (sat_per_vb : Nat) : Except FeeRateError FeeRate :=
  match bitcoinFeeRateFromSatPerVb sat_per_vb with
  | some fee_rate => .ok (FeeRate.mk fee_rate)
  | none => .error FeeRateError.ArithmeticOverflow

/-- Modelled from the spec: the external `bitcoin::Amount`, which the spec
describes as an already-implemented type re-wrapped by "a single-field
wrapper ... with mechanical bidirectional conversions"; it holds a satoshi
count (a u64, embedded as Nat). -/
structure BitcoinAmount where
  sat : Nat
  deriving Repr, DecidableEq

/-- Wrapper `Amount` (src/lib.rs), a single-field wrapper around the
upstream amount. -/
structure Amount where
  inner : BitcoinAmount
  deriving Repr, DecidableEq

/-- Embedding of `Amount::from_sat` (src/lib.rs): wraps
`bitcoin::Amount::from_sat(sat)`, which stores the satoshi count. -/
def Amount.from_sat (sat : Nat) : Amount :=
  Amount.mk (BitcoinAmount.mk sat)

/-- Embedding of `Amount::to_sat` (src/lib.rs): reads back the wrapped
satoshi count. -/
def Amount.to_sat (a : Amount) : Nat :=
  a.inner.sat

/-- Upstream `bitcoin::Psbt`, opaque to the wrapper logic verified here:
`Psbt::combine` in src/lib.rs only clones, passes to the upstream combine,
and re-wraps, never inspecting the contents. -/
structure BitcoinPsbt where
  data : String
  deriving Repr, DecidableEq

/-- Wrapper `Psbt` (src/lib.rs), a single-field wrapper around the upstream
PSBT. -/
structure Psbt where
  inner : BitcoinPsbt
  deriving Repr, DecidableEq

/-- Embedding of `Psbt::combine` (src/lib.rs), explicit-state style.  The
upstream in-place `bitcoin::Psbt::combine` is a parameter `upstreamCombine`
returning the mutated receiver on success.  The source clones both inner
values, combines the clones, and wraps the result; the second and third
components of the returned triple are the post-call states of the receiver
and the argument, which the source never touches. -/
def Psbt.combine (upstreamCombine : BitcoinPsbt → BitcoinPsbt → Except PsbtError BitcoinPsbt)
    (self other : Psbt) : Except PsbtError Psbt × Psbt × Psbt :=
  let psbt := self.inner -- let mut psbt = self.0.clone()
  let other_psbt := other.inner -- let other_psbt = other.0.clone()
  match upstreamCombine psbt other_psbt with
  | .ok combined => (.ok (Psbt.mk combined), self, other)
  | .error e => (.error e, self, other)

/-- Claim C1, counterexample: the claim says every error-family mapper,
including the PSBT string-parse one, returns a stable value and never
panics on any upstream value.  It is false: on an upstream
`BitcoinPsbtParseError` variant the mapper does not enumerate, the source's
wildcard arm is `unreachable!`, a panic, embedded here as `none`. -/
theorem c1_psbt_string_parse_mapper_panics :
    PsbtParseError.ofUpstream (BitcoinPsbtParseError.Unknown "future variant") = none :=
  rfl

/-- Claim C1 (amended): every error-family mapper except the PSBT
string-parse one returns a stable error value on every value its upstream
error type can produce, including non-enumerated variants, and never
panics; the PSBT string-parse mapper returns a stable value on the two
variants it enumerates and panics (the source's unreachable! arm) on any
other upstream variant. -/
theorem c1_mapper_totality :
    (∀ e, (AddressParseError.ofUpstream e).isSome = true) ∧
    (∀ e, (ParseAmountError.ofUpstream e).isSome = true) ∧
    (∀ e, (FromScriptError.ofUpstream e).isSome = true) ∧
    (∀ e, (EncodeError.ofUpstream e).isSome = true) ∧
    (∀ e, (PsbtError.ofUpstream e).isSome = true) ∧
    (∀ e, (ExtractTxError.ofUpstream e).isSome = true) ∧
    (∀ m, PsbtParseError.ofUpstream (.PsbtEncoding m) = some (.PsbtEncoding m)) ∧
    (∀ m, PsbtParseError.ofUpstream (.Base64Encoding m) = some (.Base64Encoding m)) ∧
    (∀ e, PsbtParseError.ofUpstream (.Unknown e) = none) :=
  ⟨fun e => by cases e <;> rfl,
   fun e => by cases e <;> rfl,
   fun e => by cases e <;> rfl,
   fun e => by cases e <;> rfl,
   fun e => by cases e <;> rfl,
   fun e => by cases e <;> rfl,
   fun _ => rfl, fun _ => rfl, fun _ => rfl⟩

/-- Claim C2: for every upstream error value whose variant is not
explicitly enumerated in its family's mapper (the `Unknown` constructor,
standing for the non_exhaustive extension of each upstream enum), the
mapper returns the family's single catch-all stable variant. -/
theorem c2_catch_all_reachability :
    (∀ e, AddressParseError.ofUpstream (.Unknown e) = some .OtherAddressParseErr) ∧
    (∀ e, ParseAmountError.ofUpstream (.Unknown e) = some .OtherParseAmountErr) ∧
    (∀ e, FromScriptError.ofUpstream (.Unknown e) = some .OtherFromScriptErr) ∧
    (∀ e, EncodeError.ofUpstream (.Unknown e) = some .OtherEncodeErr) ∧
    (∀ e, PsbtError.ofUpstream (.Unknown e) = some .OtherPsbtErr) ∧
    (∀ e, ExtractTxError.ofUpstream (.Unknown e) = some .OtherExtractTxErr) :=
  ⟨fun _ => rfl, fun _ => rfl, fun _ => rfl, fun _ => rfl, fun _ => rfl, fun _ => rfl⟩

/-- Claim C3: every upstream checksum-mismatch error maps to the
`InvalidChecksum` stable variant whose fields are the lowercase-hex
renderings of the expected and actual checksum bytes; in particular the
bytes of 0xdeadbeef and 0xfeedface render as "deadbeef" and "feedface". -/
theorem c3_checksum_lower_hex :
    (∀ expected actual,
      EncodeError.ofUpstream (.InvalidChecksum expected actual) =
        some (.InvalidChecksum (toLowerHexString expected) (toLowerHexString actual))) ∧
    EncodeError.ofUpstream
        (.InvalidChecksum [0xde, 0xad, 0xbe, 0xef] [0xfe, 0xed, 0xfa, 0xce]) =
      some (.InvalidChecksum "deadbeef" "feedface") :=
  ⟨fun _ _ => rfl, by decide⟩

/-- Claim C4: the consensus-encoding mapper preserves the unsupported
segwit flag byte verbatim, and the PSBT mapper preserves the non-standard
sighash value verbatim, with no truncation or conversion. -/
theorem c4_numeric_field_fidelity :
    (∀ flag, EncodeError.ofUpstream (.UnsupportedSegwitFlag flag) =
      some (.UnsupportedSegwitFlag flag)) ∧
    (∀ sighash, PsbtError.ofUpstream (.NonStandardSighashType sighash) =
      some (.NonStandardSighashType sighash)) :=
  ⟨fun _ => rfl, fun _ => rfl⟩

/-- Claim C5: variants that keep an upstream payload as text copy the
payload's display-formatted string verbatim (payloads are embedded by their
display strings): the PSBT duplicate-key variant and the amount-parse
invalid-character variant. -/
theorem c5_text_field_fidelity :
    (∀ key, PsbtError.ofUpstream (.DuplicateKey key) = some (.DuplicateKey key)) ∧
    (∀ msg, ParseAmountError.ofUpstream (.InvalidCharacter msg) =
      some (.InvalidCharacter msg)) :=
  ⟨fun _ => rfl, fun _ => rfl⟩

/-- Claim C6: `FeeRate::from_sat_per_vb` returns Ok with the constructed
fee rate when the upstream conversion succeeds, otherwise fails with
exactly `ArithmeticOverflow`, which carries no payload and is the only
variant of the fee-rate error family. -/
theorem c6_fee_rate_overflow (sat_per_vb : Nat) :
    (∀ f, bitcoinFeeRateFromSatPerVb sat_per_vb = some f →
      FeeRate.from_sat_per_vb sat_per_vb = .ok (FeeRate.mk f)) ∧
    (bitcoinFeeRateFromSatPerVb sat_per_vb = none →
      FeeRate.from_sat_per_vb sat_per_vb = .error FeeRateError.ArithmeticOverflow) ∧
    (∀ e : FeeRateError, e = FeeRateError.ArithmeticOverflow) := by
  refine ⟨?_, ?_, ?_⟩
  · intro f h
    simp [FeeRate.from_sat_per_vb, h]
  · intro h
    simp [FeeRate.from_sat_per_vb, h]
  · intro e
    cases e
    rfl

/-- Witness for C6: at 1 sat/vB the conversion succeeds with 250 sat/kwu;
at 2^62 sat/vB the u64 weight-unit representation overflows. -/
theorem c6_fee_rate_overflow_witness :
    FeeRate.from_sat_per_vb 1 = .ok (FeeRate.mk 250) ∧
    FeeRate.from_sat_per_vb 4611686018427387904 =
      .error FeeRateError.ArithmeticOverflow :=
  ⟨(c6_fee_rate_overflow 1).1 250 (by decide),
   (c6_fee_rate_overflow 4611686018427387904).2.1 (by decide)⟩

/-- Claim C7: every error-family mapper is deterministic — equal upstream
inputs yield equal stable outputs. -/
theorem c7_mapper_determinism :
    (∀ a b, a = b → AddressParseError.ofUpstream a = AddressParseError.ofUpstream b) ∧
    (∀ a b, a = b → ParseAmountError.ofUpstream a = ParseAmountError.ofUpstream b) ∧
    (∀ a b, a = b → FromScriptError.ofUpstream a = FromScriptError.ofUpstream b) ∧
    (∀ a b, a = b → EncodeError.ofUpstream a = EncodeError.ofUpstream b) ∧
    (∀ a b, a = b → PsbtError.ofUpstream a = PsbtError.ofUpstream b) ∧
    (∀ a b, a = b → PsbtParseError.ofUpstream a = PsbtParseError.ofUpstream b) ∧
    (∀ a b, a = b → ExtractTxError.ofUpstream a = ExtractTxError.ofUpstream b) :=
  ⟨fun _ _ h => congrArg _ h, fun _ _ h => congrArg _ h, fun _ _ h => congrArg _ h,
   fun _ _ h => congrArg _ h, fun _ _ h => congrArg _ h, fun _ _ h => congrArg _ h,
   fun _ _ h => congrArg _ h⟩

/-- Witness for C7: the PSBT mapper applied twice to the same concrete
upstream value gives the same stable value. -/
theorem c7_mapper_determinism_witness :
    PsbtError.ofUpstream BitcoinPsbtError.InvalidMagic =
      PsbtError.ofUpstream BitcoinPsbtError.InvalidMagic :=
  c7_mapper_determinism.2.2.2.2.1 BitcoinPsbtError.InvalidMagic
    BitcoinPsbtError.InvalidMagic rfl

/-- Claim C9: the satoshi constructor and accessor round-trip exactly for
every satoshi count, with no range restriction and no failure case. -/
theorem c9_amount_sat_round_trip :
    ∀ sat : Nat, Amount.to_sat (Amount.from_sat sat) = sat :=
  fun _ => rfl

/-- Claim C10: `Psbt::combine` never mutates its receiver or its argument:
whatever the upstream combine returns (Ok or Err), the post-call states of
both PSBTs equal their initial states. -/
theorem c10_combine_frame :
    ∀ (upstreamCombine : BitcoinPsbt → BitcoinPsbt → Except PsbtError BitcoinPsbt)
      (a b : Psbt),
      (Psbt.combine upstreamCombine a b).2.1 = a ∧
        (Psbt.combine upstreamCombine a b).2.2 = b := by
  intro up a b
  unfold Psbt.combine
  cases h : up a.inner b.inner <;> simp [h]
